import Mathlib

/-!
Shallow embedding of `src/shepherd.js` (the Shepherd tag-feed ad selector).

The pipeline under study: the intersection-observer callback
`handleVisibilityChange` computes a capped, sorted list of visible tag
indices and a keyword pool; `fetchAndRenderAd` resolves an ad by trying a
prioritized provider list sequentially; `init`, `updateVisibleCount` and
`updateSpacing` form the public API.  DOM plumbing (element creation, CSS)
is out of the modelled core; the render sink (writes to
`adSlotEl.innerHTML`) and the observability collaborator (`console.warn`)
are recorded as explicit traces so that claims about them are statable.
-/

namespace Shepherd

/-- A tag from the configuration: `{text, keywords}`.  Its id / original
configured position is its index in `config.tags` (the source stores it in
`dataset.idx`). -/
structure Tag where
  text : String
  keywords : List String
deriving Repr, DecidableEq

/-- The module-level `config` object built by `init`
(src/shepherd.js lines 175-181). Numbers are JS numbers used as integers
here; the source performs no validation on them. -/
structure Config where
  feedElementId : String
  adSlotId : String
  visibleTagCount : Int
  tagSpacingPx : Int
  tags : List Tag
deriving Repr, DecidableEq

/-- An IntersectionObserver entry as consumed by `handleVisibilityChange`:
only the tag index (`entry.target.dataset.idx`) and `entry.isIntersecting`
are read. -/
structure Entry where
  idx : Nat
  isIntersecting : Bool
deriving Repr, DecidableEq

/-- JavaScript `Array.prototype.slice(0, stop)`: a negative `stop` counts
from the end (clamped at 0); a `stop` beyond the length is clamped to the
length.  The source calls `visibleIdx.slice(0, config.visibleTagCount)`. -/
def jsSliceTo {α : Type} (l : List α) (stop : Int) : List α :=
  if stop < 0 then l.take ((l.length : Int) + stop).toNat else l.take stop.toNat

/-- `handleVisibilityChange` (src/shepherd.js lines 76-98), minus the DOM
class toggling: collects indices of intersecting entries, sorts ascending
(the JS comparator `(a, b) => a - b`), truncates with
`slice(0, visibleTagCount)`, and builds the keyword pool by
`flatMap i => config.tags[i].keywords`.  Returns (trimmed selection,
keyword pool).  An out-of-range index contributes no keywords. -/
def handleVisibilityChange (cfg : Config) (entries : List Entry) :
    List Nat × List String :=
  let visibleIdx := (entries.filter (fun e => e.isIntersecting)).map (fun e => e.idx)
  let sorted := visibleIdx.mergeSort (fun a b => a ≤ b)
  let trimmed := jsSliceTo sorted cfg.visibleTagCount
  let pool := trimmed.flatMap (fun i => (cfg.tags.getD i ⟨"", []⟩).keywords)
  (trimmed, pool)

/-- Outcome of one `fetchAdFromProvider` call as the engine observes it:
the promise resolves to a result (`null` or `{html}`) or rejects. -/
inductive ProviderResponse
  | ok (result : Option String)
  | err
deriving Repr, DecidableEq

/-- Classification of the run of `fetchAndRenderAd` (the spec's AdOutcome):
the three distinct exit paths of the source function. -/
inductive AdOutcome
  | rendered (providerId : String) (html : String)
  | noneEmptyPool
  | noneNoMatch
deriving Repr, DecidableEq

/-- Everything observable about one run of `fetchAndRenderAd`: its outcome,
the providers invoked in order, the provider failures reported to
`console.warn`, and the writes to `adSlotEl.innerHTML` in order. -/
structure RunResult where
  outcome : AdOutcome
  called : List String
  reported : List String
  sinkWrites : List String
deriving Repr, DecidableEq

/-- The configured provider list (src/shepherd.js line 34). -/
def providerList : List String := ["carbon", "facebook", "google"]

/-- `adSlotEl.innerHTML` text written on the empty-pool path (line 106). -/
def emptyPoolMsg : String := "<p>No relevant ad (no keywords visible).</p>"

/-- `adSlotEl.innerHTML` text written on the no-match path (line 126). -/
def noMatchMsg : String := "<p>No suitable ad found for the current tags.</p>"

/-- The `for (const provider of providerList)` loop of `fetchAndRenderAd`
(lines 111-127), over a remaining provider list.  `lookup p kws` is the
settled result of `await fetchAdFromProvider(p, kws)`.  A non-null result
with truthy (non-empty) `html` stops the loop and writes the markup; a
null/empty result continues; a rejection is caught, reported, and the loop
continues; exhaustion writes the no-match message. -/
def resolveLoop (lookup : String → List String → ProviderResponse)
    (keywords : List String) : List String → RunResult
  | [] => ⟨.noneNoMatch, [], [], [noMatchMsg]⟩
  | p :: rest =>
    match lookup p keywords with
    | .ok (some h) =>
      if h = "" then
        let r := resolveLoop lookup keywords rest
        ⟨r.outcome, p :: r.called, r.reported, r.sinkWrites⟩
      else
        ⟨.rendered p h, [p], [], [h]⟩
    | .ok none =>
      let r := resolveLoop lookup keywords rest
      ⟨r.outcome, p :: r.called, r.reported, r.sinkWrites⟩
    | .err =>
      let r := resolveLoop lookup keywords rest
      ⟨r.outcome, p :: r.called, p :: r.reported, r.sinkWrites⟩

/-- `fetchAndRenderAd` (src/shepherd.js lines 103-127): empty keyword pool
short-circuits to the empty-pool message without touching any provider;
otherwise the provider loop runs over `providerList`. -/
def fetchAndRenderAd (lookup : String → List String → ProviderResponse)
    (keywords : List String) : RunResult :=
  if keywords.length = 0 then ⟨.noneEmptyPool, [], [], [emptyPoolMsg]⟩
  else resolveLoop lookup keywords providerList

/-- State of `adSlotEl.innerHTML` after a list of resolution runs have
completed, in completion order: each completed run applies its sink writes
unconditionally (the source has no generation counter or staleness check),
so a later-completing run overwrites an earlier one. -/
def renderSinkAfter (completions : List RunResult) : Option String :=
  completions.foldl (fun acc r => r.sinkWrites.foldl (fun _ w => some w) acc) none

/-- Does a response count as a match for the engine (`ad && ad.html`)? -/
def isMatch : ProviderResponse → Bool
  | .ok (some h) => !(h = "")
  | _ => false

/-- Field `tags` of the options object: missing, present but not an array,
or an array (the source checks `Array.isArray(opts.tags)`). -/
inductive TagsVal
  | missing
  | notArray
  | array (ts : List Tag)
deriving Repr, DecidableEq

/-- Is the tags field an array? -/
def TagsVal.isArray : TagsVal → Bool
  | .array _ => true
  | _ => false

/-- The options object accepted by `Shepherd.init` (`none` = the field is
absent/undefined). -/
structure InitOpts where
  feedElementId : Option String
  adSlotId : Option String
  visibleTagCount : Option Int
  tagSpacingPx : Option Int
  tags : TagsVal
deriving Repr, DecidableEq

/-- JS truthiness of an optional string option: `!opts.x` is true when the
field is absent or the empty string. -/
def strFalsy : Option String → Bool
  | none => true
  | some s => s = ""

/-- The two distinct failures `init` can raise: the missing-options throw
(line 172, the spec's InvalidConfig) and the unresolvable-elements throw
(line 186, the spec's InitError). -/
inductive InitFailure
  | invalidConfig
  | initError
deriving Repr, DecidableEq

/-- `Shepherd.init` (src/shepherd.js lines 169-191), with the DOM abstracted
as `dom : String → Bool` (whether `document.getElementById` resolves an id).
Validation: throws InvalidConfig iff `feedElementId` or `adSlotId` is falsy
or `tags` is not an array; `visibleTagCount` and `tagSpacingPx` are never
validated and default via `?? 5` and `?? 12`; after building the config it
throws InitError iff either element is unresolvable. -/
def init (dom : String → Bool) (o : InitOpts) : Except InitFailure Config :=
  if strFalsy o.feedElementId || strFalsy o.adSlotId || !o.tags.isArray then
    .error .invalidConfig
  else
    match o.feedElementId, o.adSlotId, o.tags with
    | some f, some a, .array ts =>
      let cfg : Config :=
        ⟨f, a, o.visibleTagCount.getD 5, o.tagSpacingPx.getD 12, ts⟩
      if dom f && dom a then .ok cfg else .error .initError
    | _, _, _ => .error .invalidConfig

/-- `Shepherd.updateVisibleCount` (src/shepherd.js lines 194-203): sets
`config.visibleTagCount = newCount` with no validation, then forces one
recomputation by calling `handleVisibilityChange` on synthetic entries,
all marked intersecting, for the tags currently within the feed's right
bound (`inBoundsIdx` models that geometric DOM filter).  Returns the new
config and the recomputation's (selection, pool). -/
def updateVisibleCount (cfg : Config) (inBoundsIdx : List Nat) (newCount : Int) :
    Config × (List Nat × List String) :=
  let cfg2 := { cfg with visibleTagCount := newCount }
  (cfg2, handleVisibilityChange cfg2 (inBoundsIdx.map (fun i => ⟨i, true⟩)))

/-- `Shepherd.updateSpacing` (src/shepherd.js lines 206-209): sets
`config.tagSpacingPx = px` and writes the CSS custom property; it calls
nothing else — no recomputation, no resolution.  The boolean records
whether a recomputation was triggered (it never is). -/
def updateSpacing (cfg : Config) (px : Int) : Config × Bool :=
  ({ cfg with tagSpacingPx := px }, false)

/-- Sequential processing of one observer callback, as state passing: the
"membership" after a callback.  The source keeps no membership between
callbacks — `handleVisibilityChange` rebuilds `visibleIdx` from the
delivered entries alone (lines 78-85), so the previous state is unused. -/
def stepMembership (prev : List Nat) (entries : List Entry) : List Nat :=
  let _ := prev
  ((entries.filter (fun e => e.isIntersecting)).map (fun e => e.idx)).mergeSort
    (fun a b => a ≤ b)

/-- Concrete provider behaviour for the spec example
`[A→null, B→{html:"x"}, C→{html:"y"}]` over the configured list
(carbon declines, facebook matches, google would match). -/
def exampleLookupNullXY : String → List String → ProviderResponse :=
  fun p _ =>
    if p = "carbon" then .ok none
    else if p = "facebook" then .ok (some "x")
    else .ok (some "y")

/-- Concrete provider behaviour for the spec example
`[A→throws, B→{html:"x"}]` (carbon rejects, facebook matches). -/
def exampleLookupThrowX : String → List String → ProviderResponse :=
  fun p _ =>
    if p = "carbon" then .err
    else if p = "facebook" then .ok (some "x")
    else .ok none

/-- Same behaviour as `exampleLookupThrowX` except that carbon declines
instead of rejecting — the decline-equivalence comparison point. -/
def exampleLookupDeclineX : String → List String → ProviderResponse :=
  fun p _ =>
    if p = "carbon" then .ok none
    else if p = "facebook" then .ok (some "x")
    else .ok none

/-- Provider behaviour of the earlier, slow run in the overlap scenario. -/
def exampleLookupSlow : String → List String → ProviderResponse :=
  fun _ _ => .ok (some "AD1")

/-- Provider behaviour of the later, fast run in the overlap scenario. -/
def exampleLookupFast : String → List String → ProviderResponse :=
  fun _ _ => .ok (some "AD2")

/-- The visible indices collected from an entries batch (the `visibleIdx`
array of lines 78-82). -/
def visibleIdxOf (entries : List Entry) : List Nat :=
  (entries.filter (fun e => e.isIntersecting)).map (fun e => e.idx)

end Shepherd

namespace Shepherd

/-- Helper: the provider loop writes to the ad slot exactly once, on every
path. -/
theorem resolveLoop_sinkWrites_length
    (lookup : String → List String → ProviderResponse) (kw : List String) :
    ∀ ps : List String, (resolveLoop lookup kw ps).sinkWrites.length = 1 := by
  intro ps
  induction ps with
  | nil => rfl
  | cons p rest ih =>
    show (resolveLoop lookup kw (p :: rest)).sinkWrites.length = 1
    simp only [resolveLoop]
    cases hl : lookup p kw with
    | ok r =>
      cases r with
      | none => simpa using ih
      | some s =>
        by_cases hs : s = "" <;> simp [hs, ih]
    | err => simpa using ih

/-- Helper: when every remaining provider declines or fails, the loop
exhausts the list (calling each provider in order) and exits no-match. -/
theorem resolveLoop_all_decline
    (lookup : String → List String → ProviderResponse) (kw : List String) :
    ∀ ps : List String, (∀ q ∈ ps, isMatch (lookup q kw) = false) →
      (resolveLoop lookup kw ps).outcome = .noneNoMatch ∧
      (resolveLoop lookup kw ps).called = ps := by
  intro ps
  induction ps with
  | nil => exact fun _ => ⟨rfl, rfl⟩
  | cons p rest ih =>
    intro h
    have hp : isMatch (lookup p kw) = false := h p (List.mem_cons_self p rest)
    have hrest := ih fun q hq => h q (List.mem_cons_of_mem p hq)
    simp only [resolveLoop]
    cases hl : lookup p kw with
    | ok r =>
      cases r with
      | none => simpa using hrest
      | some s =>
        have hs : s = "" := by
          by_contra hne
          rw [hl] at hp
          simp [isMatch, hne] at hp
        simp [hs, hrest.1, hrest.2]
    | err => simp [hrest.1, hrest.2]

/-- Helper: the loop stops at the first matching provider, returning its
markup and never calling a later provider. -/
theorem resolveLoop_first_match
    (lookup : String → List String → ProviderResponse) (kw : List String)
    (p : String) (h : String) (post : List String)
    (hp : lookup p kw = .ok (some h)) (hh : h ≠ "") :
    ∀ pre : List String, (∀ q ∈ pre, isMatch (lookup q kw) = false) →
      (resolveLoop lookup kw (pre ++ p :: post)).outcome = .rendered p h ∧
      (resolveLoop lookup kw (pre ++ p :: post)).called = pre ++ [p] ∧
      (resolveLoop lookup kw (pre ++ p :: post)).sinkWrites = [h] := by
  intro pre
  induction pre with
  | nil =>
    intro _
    simp only [List.nil_append, resolveLoop, hp]
    simp [hh]
  | cons q qs ih =>
    intro hpre
    have hq : isMatch (lookup q kw) = false := hpre q (List.mem_cons_self q qs)
    have hqs := ih fun r hr => hpre r (List.mem_cons_of_mem q hr)
    simp only [List.cons_append, resolveLoop]
    cases hl : lookup q kw with
    | ok r =>
      cases r with
      | none => simpa using hqs
      | some s =>
        have hs : s = "" := by
          by_contra hne
          rw [hl] at hq
          simp [isMatch, hne] at hq
        simp [hs, hqs.1, hqs.2.1, hqs.2.2]
    | err => simp [hqs.1, hqs.2.1, hqs.2.2]

/-- C1: for a non-empty keyword pool the engine walks `providerList`
strictly in order: if every configured provider declines (null or empty
markup) or fails, the outcome is no-match and every provider was called in
order; if the list splits as `pre ++ p :: post` with every provider in
`pre` declining/failing and `p` resolving to non-empty markup `h`, the
outcome is `rendered p h`, exactly the providers `pre ++ [p]` are called
(no provider after `p` is ever invoked), and `h` is what reaches the ad
slot. -/
theorem C1_sequential_first_match_wins
    (lookup : String → List String → ProviderResponse) (kw : List String)
    (hkw : kw.length ≠ 0) :
    ((∀ q ∈ providerList, isMatch (lookup q kw) = false) →
      (fetchAndRenderAd lookup kw).outcome = .noneNoMatch ∧
      (fetchAndRenderAd lookup kw).called = providerList) ∧
    (∀ pre p post h, providerList = pre ++ p :: post →
      (∀ q ∈ pre, isMatch (lookup q kw) = false) →
      lookup p kw = .ok (some h) → h ≠ "" →
      (fetchAndRenderAd lookup kw).outcome = .rendered p h ∧
      (fetchAndRenderAd lookup kw).called = pre ++ [p]) := by
  have hfr : fetchAndRenderAd lookup kw = resolveLoop lookup kw providerList := by
    unfold fetchAndRenderAd
    simp [hkw]
  constructor
  · intro hall
    rw [hfr]
    exact resolveLoop_all_decline lookup kw providerList hall
  · intro pre p post h hsplit hpre hp hh
    rw [hfr, hsplit]
    have := resolveLoop_first_match lookup kw p h post hp hh pre hpre
    exact ⟨this.1, this.2.1⟩

/-- C1 witness: the spec example `[carbon→null, facebook→"x", google→"y"]`
on a one-keyword pool renders facebook's markup and never calls google. -/
theorem C1_sequential_first_match_wins_witness :
    (fetchAndRenderAd exampleLookupNullXY ["k"]).outcome = .rendered "facebook" "x" ∧
    (fetchAndRenderAd exampleLookupNullXY ["k"]).called = ["carbon", "facebook"] := by
  have h := (C1_sequential_first_match_wins exampleLookupNullXY ["k"] (by decide)).2
    ["carbon"] "facebook" ["google"] "x" rfl (by decide) rfl (by decide)
  exact ⟨h.1, h.2⟩

/-- C3: an empty keyword pool short-circuits: the outcome is the empty-pool
signal, no provider is called, nothing is reported, and the run still
completes normally with its single sink write (it is a valid input, not an
error). -/
theorem C3_empty_pool_short_circuit
    (lookup : String → List String → ProviderResponse) :
    (fetchAndRenderAd lookup []).outcome = .noneEmptyPool ∧
    (fetchAndRenderAd lookup []).called = [] ∧
    (fetchAndRenderAd lookup []).reported = [] ∧
    (fetchAndRenderAd lookup []).sinkWrites = [emptyPoolMsg] :=
  ⟨rfl, rfl, rfl, rfl⟩

/-- C4: a provider whose lookup rejects is isolated: the run's outcome and
sink writes are exactly those of continuing with the remaining providers
(no failure is propagated or surfaced to the ad slot), the provider is
recorded as called and its failure reported to the observability
collaborator, and the result coincides with what a declining (null)
response from that provider would have produced, except for the report. -/
theorem C4_provider_failure_isolated
    (lookup lookupD : String → List String → ProviderResponse)
    (kw : List String) (p : String) (rest : List String)
    (herr : lookup p kw = .err)
    (hD : lookupD p kw = .ok none)
    (hsame : ∀ q, q ∈ rest → lookupD q kw = lookup q kw) :
    (resolveLoop lookup kw (p :: rest)).outcome =
      (resolveLoop lookup kw rest).outcome ∧
    (resolveLoop lookup kw (p :: rest)).sinkWrites =
      (resolveLoop lookup kw rest).sinkWrites ∧
    (resolveLoop lookup kw (p :: rest)).called =
      p :: (resolveLoop lookup kw rest).called ∧
    (resolveLoop lookup kw (p :: rest)).reported =
      p :: (resolveLoop lookup kw rest).reported ∧
    (resolveLoop lookup kw (p :: rest)).outcome =
      (resolveLoop lookupD kw (p :: rest)).outcome ∧
    (resolveLoop lookup kw (p :: rest)).sinkWrites =
      (resolveLoop lookupD kw (p :: rest)).sinkWrites := by
  have htail : resolveLoop lookupD kw rest = resolveLoop lookup kw rest := by
    clear herr hD
    induction rest with
    | nil => rfl
    | cons q qs ih =>
      have hq : lookupD q kw = lookup q kw := hsame q (List.mem_cons_self q qs)
      have hqs := ih fun r hr => hsame r (List.mem_cons_of_mem q hr)
      simp only [resolveLoop, hq, hqs]
  simp [resolveLoop, herr, hD, htail]

/-- C4 witness: with `[carbon→throws, facebook→"x"]`, the run renders
facebook's markup and reports carbon's failure. -/
theorem C4_provider_failure_isolated_witness :
    (resolveLoop exampleLookupThrowX ["k"] providerList).outcome =
      .rendered "facebook" "x" ∧
    (resolveLoop exampleLookupThrowX ["k"] providerList).reported = ["carbon"] := by
  have h := C4_provider_failure_isolated exampleLookupThrowX exampleLookupDeclineX
    ["k"] "carbon" ["facebook", "google"] rfl rfl (by decide)
  refine ⟨?_, ?_⟩
  · rw [show providerList = "carbon" :: ["facebook", "google"] from rfl, h.1]
    decide
  · rw [show providerList = "carbon" :: ["facebook", "google"] from rfl, h.2.2.2.1]
    decide

/-- Helper: `mergeSort` with the ascending comparator yields a `≤`-sorted
list. -/
theorem mergeSort_le_sorted (l : List Nat) :
    List.Sorted (· ≤ ·) (l.mergeSort (fun a b => a ≤ b)) := by
  have h := @List.sorted_mergeSort Nat (fun a b => decide (a ≤ b))
    (fun a b c hab hbc => by
      simp only [decide_eq_true_eq] at *
      exact le_trans hab hbc)
    (fun a b => by
      simp only [Bool.or_eq_true, decide_eq_true_eq]
      exact le_total a b) l
  exact h.imp (fun hd => by simpa using hd)

/-- C2: for a positive `visibleTagCount`, the selection computed by
`handleVisibilityChange` is exactly the batch's visible indices (the
membership) sorted ascending by original configured position and truncated
to the first `visibleTagCount` entries; consequently it is `≤`-sorted and
its length never exceeds `visibleTagCount`. -/
theorem C2_selection_sorted_and_capped (cfg : Config) (entries : List Entry)
    (hpos : 0 < cfg.visibleTagCount) :
    (handleVisibilityChange cfg entries).1 =
      ((visibleIdxOf entries).mergeSort (fun a b => a ≤ b)).take
        cfg.visibleTagCount.toNat ∧
    List.Sorted (· ≤ ·) (handleVisibilityChange cfg entries).1 ∧
    ((handleVisibilityChange cfg entries).1).length ≤ cfg.visibleTagCount.toNat := by
  have hnn : ¬ cfg.visibleTagCount < 0 := not_lt.mpr (le_of_lt hpos)
  have heq : (handleVisibilityChange cfg entries).1 =
      ((visibleIdxOf entries).mergeSort (fun a b => a ≤ b)).take
        cfg.visibleTagCount.toNat := by
    simp [handleVisibilityChange, jsSliceTo, hnn, visibleIdxOf]
  refine ⟨heq, ?_, ?_⟩
  · rw [heq]
    exact (mergeSort_le_sorted (visibleIdxOf entries)).sublist
      (List.take_sublist _ _)
  · rw [heq]
    exact (List.length_take_le _ _)

/-- C2 witness: a concrete batch with three intersecting entries under
`visibleTagCount = 2` yields the first two positions in order. -/
theorem C2_selection_sorted_and_capped_witness :
    0 < (2 : Int) ∧
    ((handleVisibilityChange ⟨"f", "a", 2, 12, []⟩
        [⟨3, true⟩, ⟨1, true⟩, ⟨2, true⟩, ⟨0, false⟩]).1 =
      ((visibleIdxOf [⟨3, true⟩, ⟨1, true⟩, ⟨2, true⟩, ⟨0, false⟩]).mergeSort
        (fun a b => a ≤ b)).take (2 : Int).toNat ∧
    List.Sorted (· ≤ ·)
      (handleVisibilityChange ⟨"f", "a", 2, 12, []⟩
        [⟨3, true⟩, ⟨1, true⟩, ⟨2, true⟩, ⟨0, false⟩]).1 ∧
    ((handleVisibilityChange ⟨"f", "a", 2, 12, []⟩
        [⟨3, true⟩, ⟨1, true⟩, ⟨2, true⟩, ⟨0, false⟩]).1).length ≤ (2 : Int).toNat) :=
  ⟨by decide,
    C2_selection_sorted_and_capped ⟨"f", "a", 2, 12, []⟩
      [⟨3, true⟩, ⟨1, true⟩, ⟨2, true⟩, ⟨0, false⟩] (by decide)⟩

/-- C5 counterexample: the source keeps no membership across observer
callbacks, so processing the event "tag 2 became visible" after "tag 1
became visible" does not add 2 to a membership containing 1 — the previous
membership is discarded and the result is `[2]`, not `[1, 2]` as the claim
requires. -/
theorem C5_membership_not_persistent :
    stepMembership (stepMembership [] [⟨1, true⟩]) [⟨2, true⟩] = [2] ∧
    stepMembership (stepMembership [] [⟨1, true⟩]) [⟨2, true⟩] ≠ [1, 2] := by
  have h1 : stepMembership (stepMembership [] [⟨1, true⟩]) [⟨2, true⟩] = [2] := by
    simp [stepMembership]
  refine ⟨h1, ?_⟩
  rw [h1]
  decide

/-- C5 amended: each observer callback rebuilds the membership from its
delivered entries alone, ignoring any previous membership: an index is a
member exactly when some entry of the batch reports it intersecting; since
the computation is a pure function of the batch, reprocessing the same
batch leaves the membership unchanged (idempotence). -/
theorem C5_membership_rebuilt_per_batch (prev : List Nat) (entries : List Entry) :
    stepMembership prev entries = stepMembership [] entries ∧
    (∀ i : Nat, i ∈ stepMembership prev entries ↔
      ∃ e ∈ entries, e.isIntersecting = true ∧ e.idx = i) ∧
    stepMembership (stepMembership prev entries) entries =
      stepMembership prev entries := by
  refine ⟨rfl, ?_, rfl⟩
  intro i
  unfold stepMembership
  rw [(List.mergeSort_perm _ _).mem_iff]
  simp [List.mem_map, List.mem_filter]
  constructor
  · rintro ⟨e, ⟨he, hi⟩, hidx⟩
    exact ⟨e, he, hi, hidx⟩
  · rintro ⟨e, he, hi, hidx⟩
    exact ⟨e, ⟨he, hi⟩, hidx⟩

/-- Helper: every run of `fetchAndRenderAd` performs exactly one sink
write, on any path. -/
theorem run_one_sink_write
    (lookup : String → List String → ProviderResponse) (kw : List String) :
    (fetchAndRenderAd lookup kw).sinkWrites.length = 1 := by
  unfold fetchAndRenderAd
  by_cases h : kw.length = 0
  · simp [h]
  · simp only [h, if_false]
    exact resolveLoop_sinkWrites_length lookup kw providerList

/-- C6 counterexample: run R1 (started first, provider markup "AD1")
completes after run R2 (markup "AD2"); the source applies each completed
run's write unconditionally, so the ad slot ends with R1's markup, not
R2's — there is no generation check discarding the stale result. -/
theorem C6_last_completion_wins_counterexample :
    (fetchAndRenderAd exampleLookupSlow ["k1"]).outcome =
      .rendered "carbon" "AD1" ∧
    (fetchAndRenderAd exampleLookupFast ["k2"]).outcome =
      .rendered "carbon" "AD2" ∧
    renderSinkAfter
      [fetchAndRenderAd exampleLookupFast ["k2"],
       fetchAndRenderAd exampleLookupSlow ["k1"]] = some "AD1" ∧
    some "AD1" ≠ some "AD2" := by
  refine ⟨rfl, rfl, rfl, ?_⟩
  decide

/-- C6 amended: the source tags runs with no generation number and never
discards a completed run's result: after any sequence of completions, the
ad slot holds the single sink write of the run that completed last,
whatever run started last — completion order, not start order, decides. -/
theorem C6_completion_order_decides (earlier : List RunResult)
    (lookup : String → List String → ProviderResponse) (kw : List String) :
    renderSinkAfter (earlier ++ [fetchAndRenderAd lookup kw]) =
      (fetchAndRenderAd lookup kw).sinkWrites.getLast? := by
  obtain ⟨w, hw⟩ := List.length_eq_one.mp (run_one_sink_write lookup kw)
  unfold renderSinkAfter
  rw [List.foldl_append]
  simp only [List.foldl_cons, List.foldl_nil]
  rw [hw]
  rfl

/-- C7 counterexample: `updateVisibleCount(0)` does not fail — the source
performs no validation — and it does not leave the pipeline state
unaffected: starting from `visibleTagCount = 5` it sets the count to 0 and
triggers a recomputation whose selection is empty. -/
theorem C7_no_validation_counterexample :
    ((updateVisibleCount ⟨"f", "a", 5, 12, []⟩ [0, 1, 2] 0).1.visibleTagCount
      = 0) ∧
    (Config.visibleTagCount ⟨"f", "a", 5, 12, []⟩ = 5) ∧
    ((0 : Int) ≠ 5) ∧
    ((updateVisibleCount ⟨"f", "a", 5, 12, []⟩ [0, 1, 2] 0).2.1 = []) := by
  refine ⟨rfl, rfl, by decide, ?_⟩
  simp [updateVisibleCount, handleVisibilityChange, jsSliceTo]

/-- C7 amended: `updateVisibleCount(n)` performs no validation and never
fails: for every integer `n` (including 0 and negatives) it replaces
`visibleTagCount` with `n`, leaves the tag data untouched, and immediately
triggers exactly one recomputation over the currently in-bounds tags,
whose selection is those indices sorted ascending and truncated by
`slice(0, n)`; in particular `updateVisibleCount(3)` with five in-bounds
ids `0..4` yields exactly the first three by position. -/
theorem C7_sets_count_and_recomputes (cfg : Config) (inBoundsIdx : List Nat)
    (n : Int) :
    ((updateVisibleCount cfg inBoundsIdx n).1.visibleTagCount = n) ∧
    ((updateVisibleCount cfg inBoundsIdx n).1.tags = cfg.tags) ∧
    ((updateVisibleCount cfg inBoundsIdx n).2.1 =
      jsSliceTo (inBoundsIdx.mergeSort (fun a b => a ≤ b)) n) ∧
    ((updateVisibleCount cfg [0, 1, 2, 3, 4] 3).2.1 = [0, 1, 2]) := by
  have hsel : ∀ (c : Config) (idxs : List Nat),
      (handleVisibilityChange c (idxs.map (fun i => ⟨i, true⟩))).1 =
        jsSliceTo (idxs.mergeSort (fun a b => a ≤ b)) c.visibleTagCount := by
    intro c idxs
    simp only [handleVisibilityChange]
    congr 1
    congr 1
    induction idxs with
    | nil => rfl
    | cons i is ih => simpa using ih
  refine ⟨rfl, rfl, hsel _ inBoundsIdx, ?_⟩
  rw [show (updateVisibleCount cfg [0, 1, 2, 3, 4] 3).2.1 =
    (handleVisibilityChange { cfg with visibleTagCount := 3 }
      ([0, 1, 2, 3, 4].map (fun i => ⟨i, true⟩))).1 from rfl, hsel]
  rw [List.mergeSort_eq_self (by decide)]
  simp [jsSliceTo]

/-- C8 counterexample: with both element ids present, an array of tags, a
resolvable DOM, and the non-positive `visibleTagCount = 0`, `init`
succeeds and stores 0 — the claimed InvalidConfig failure for non-positive
`visibleCount` does not happen (the source never validates it). -/
theorem C8_accepts_nonpositive_count :
    init (fun _ => true) ⟨some "feed", some "ad", some 0, none, .array []⟩ =
      .ok ⟨"feed", "ad", 0, 12, []⟩ := by
  rfl

/-- C8 amended: `init` fails with InvalidConfig exactly when
`feedElementId` or `adSlotId` is missing/empty or `tags` is not an array;
`visibleCount` is never validated — a missing value defaults to 5 (and
`tagSpacingPx` to 12), and any integer, positive or not, is accepted
unchanged; when the options pass that check but the feed or ad-slot
element is unresolvable, `init` fails with the distinct InitError. -/
theorem C8_validation_and_default (dom : String → Bool) (o : InitOpts) :
    (init dom o = .error .invalidConfig ↔
      (strFalsy o.feedElementId || strFalsy o.adSlotId ||
        !o.tags.isArray) = true) ∧
    (∀ cfg, init dom o = .ok cfg →
      cfg.visibleTagCount = o.visibleTagCount.getD 5 ∧
      cfg.tagSpacingPx = o.tagSpacingPx.getD 12) ∧
    (∀ f a ts, o.feedElementId = some f → o.adSlotId = some a →
      o.tags = .array ts → f ≠ "" → a ≠ "" → (dom f && dom a) = false →
      init dom o = .error .initError) := by
  obtain ⟨fe, ad, vc, sp, tg⟩ := o
  refine ⟨?_, ?_, ?_⟩
  · cases fe with
    | none => simp [init, strFalsy]
    | some f =>
      cases ad with
      | none => simp [init, strFalsy]
      | some a =>
        cases tg with
        | missing => simp [init, strFalsy, TagsVal.isArray]
        | notArray => simp [init, strFalsy, TagsVal.isArray]
        | array ts =>
          by_cases hf : f = ""
          · simp [init, strFalsy, hf]
          · by_cases ha : a = ""
            · simp [init, strFalsy, hf, ha]
            · by_cases hdom : (dom f && dom a) = true <;>
                simp [init, strFalsy, hf, ha, TagsVal.isArray, hdom]
  · intro cfg hcfg
    unfold init at hcfg
    split at hcfg
    · exact absurd hcfg (by simp)
    · split at hcfg
      · split at hcfg
        · cases hcfg
          exact ⟨rfl, rfl⟩
        · exact absurd hcfg (by simp)
      · exact absurd hcfg (by simp)
  · intro f a ts hf ha hts hf0 ha0 hdom
    subst hf; subst ha; subst hts
    simp [init, strFalsy, hf0, ha0, TagsVal.isArray, hdom]

/-- C8 witness: a call with no explicit `visibleTagCount` succeeds and the
stored count is the default 5. -/
theorem C8_validation_and_default_witness :
    Config.visibleTagCount ⟨"feed", "ad", 5, 12, []⟩ =
      (none : Option Int).getD 5 ∧
    Config.tagSpacingPx ⟨"feed", "ad", 5, 12, []⟩ =
      (none : Option Int).getD 12 :=
  (C8_validation_and_default (fun _ => true)
    ⟨some "feed", some "ad", none, none, .array []⟩).2.1
    ⟨"feed", "ad", 5, 12, []⟩ rfl

/-- C10: `updateSpacing(px)` only changes the spacing value: every other
configuration field is untouched, no recomputation or resolution is
triggered, and the selection and keyword pool computed for any entries
batch are identical before and after the call. -/
theorem C10_spacing_passthrough (cfg : Config) (px : Int) :
    ((updateSpacing cfg px).1.tagSpacingPx = px) ∧
    ((updateSpacing cfg px).1.visibleTagCount = cfg.visibleTagCount) ∧
    ((updateSpacing cfg px).1.tags = cfg.tags) ∧
    ((updateSpacing cfg px).1.feedElementId = cfg.feedElementId) ∧
    ((updateSpacing cfg px).1.adSlotId = cfg.adSlotId) ∧
    ((updateSpacing cfg px).2 = false) ∧
    (∀ entries, handleVisibilityChange (updateSpacing cfg px).1 entries =
      handleVisibilityChange cfg entries) :=
  ⟨rfl, rfl, rfl, rfl, rfl, rfl, fun _ => rfl⟩

/-- C9: every resolution run — rendered, empty-pool, or no-match — delivers
exactly one write to the ad slot; outcomes are never merged, duplicated or
dropped within a run. -/
theorem C9_exactly_one_outcome_per_run
    (lookup : String → List String → ProviderResponse) (kw : List String) :
    (fetchAndRenderAd lookup kw).sinkWrites.length = 1 :=
  run_one_sink_write lookup kw

end Shepherd
